import Mathlib

/-!
Shallow embedding of the soundscape mixer (`src/components/audio-mixer.tsx`
and its near-duplicate variants) and proofs about its control logic.

Numbers (JS `number` values used here: volumes, EQ values, gains, pointer
coordinates) are embedded as rationals; all values appearing in the program
are small decimals, on which rational arithmetic agrees with IEEE doubles.
JS arrays of fixed length (one slot per track) are embedded as `List`s;
writes through an in-range index are `updateAt`, which is the identity out
of range (all call sites in the program index within the four tracks).
-/

namespace Mixer

/-- In-place update of one list element; identity when the index is out of
range (matching the `eqNodesRef.current[index]?` guards in the source). -/
def updateAt {α : Type} : List α → Nat → (α → α) → List α
  | [], _, _ => []
  | x :: xs, 0, f => f x :: xs
  | x :: xs, n + 1, f => x :: updateAt xs n f

/-! ### Track registry (`TRACKS` in `audio-mixer.tsx`) -/

/-- One entry of the static `TRACKS` array (the icon, a React component,
carries no logic and is omitted). -/
structure TrackType where
  url : String
  label : String
  gainBoost : ℚ
deriving DecidableEq

instance : Inhabited TrackType := ⟨⟨"", "", 0⟩⟩

/-- The static track registry of `audio-mixer.tsx`. -/
def TRACKS : List TrackType :=
  [ ⟨"/birds.wav", "BIRDS", 3/10⟩
  , ⟨"/waves.wav", "WAVES", 2/5⟩
  , ⟨"/rain.wav", "RAIN", 3⟩
  , ⟨"/noise.wav", "NOISE", 1⟩ ]

def DEFAULT_VOLUME : ℚ := 50
def INITIAL_MASTER_VOLUME : ℚ := 75

inductive EQBand
  | HIGH
  | MID
  | LOW
deriving DecidableEq

/-- Per-track EQ state: `Record<EQBand, number>`. -/
structure EQSettings where
  HIGH : ℚ
  MID : ℚ
  LOW : ℚ
deriving DecidableEq

instance : Inhabited EQSettings := ⟨⟨50, 50, 50⟩⟩

def EQSettings.get (e : EQSettings) : EQBand → ℚ
  | .HIGH => e.HIGH
  | .MID => e.MID
  | .LOW => e.LOW

def EQSettings.setBand (e : EQSettings) : EQBand → ℚ → EQSettings
  | .HIGH, v => { e with HIGH := v }
  | .MID, v => { e with MID := v }
  | .LOW, v => { e with LOW := v }

/-- The mutable audio-parameter state of one track's Web Audio nodes:
the `gain.value` of the three biquad filters (in dB) and of the per-track
gain node. -/
structure AudioNodes where
  highGain : ℚ
  midGain : ℚ
  lowGain : ℚ
  gain : ℚ
deriving DecidableEq

instance : Inhabited AudioNodes := ⟨⟨0, 0, 0, 0⟩⟩

def AudioNodes.bandGain (n : AudioNodes) : EQBand → ℚ
  | .HIGH => n.highGain
  | .MID => n.midGain
  | .LOW => n.lowGain

def AudioNodes.setBandGain (n : AudioNodes) : EQBand → ℚ → AudioNodes
  | .HIGH, g => { n with highGain := g }
  | .MID, g => { n with midGain := g }
  | .LOW, g => { n with lowGain := g }

/-- The state managed by `useAudioEngine`: React state (`isPlaying`,
`volumes`, `muted`, `eq`, `masterVolume`) together with the audio-graph
parameters the handlers write (`masterGain` is the master gain node's
`gain.value`, `nodes` the per-track node parameters). -/
structure EngineState where
  isPlaying : Bool
  volumes : List ℚ
  muted : List Bool
  eq : List EQSettings
  masterVolume : ℚ
  masterGain : ℚ
  nodes : List AudioNodes
deriving DecidableEq

/-- Per-track node parameters set by `initAudio`: the track gain node gets
`(initialTrackVolumesRef.current[i] / 100) * track.gainBoost` with the
initial track volumes all `DEFAULT_VOLUME`; the filters keep the Web Audio
default `gain.value` of 0 dB (never written during init). -/
def initAudioNodes (i : Nat) : AudioNodes :=
  { highGain := 0
  , midGain := 0
  , lowGain := 0
  , gain := (DEFAULT_VOLUME / 100) * (TRACKS.getD i default).gainBoost }

/-- The transient mid-mount state: React state at its `useState` initial
values and the node parameters `initAudio` writes, with the master gain node
still at the `INITIAL_MASTER_VOLUME / 100` that `initAudio` assigns
synchronously — before the `useEffect` on `[masterVolume]` has had its
mount-time run. -/
def initAudioState : EngineState :=
  { isPlaying := false
  , volumes := TRACKS.map (fun _ => DEFAULT_VOLUME)
  , muted := TRACKS.map (fun _ => false)
  , eq := TRACKS.map (fun _ => ⟨DEFAULT_VOLUME, DEFAULT_VOLUME, DEFAULT_VOLUME⟩)
  , masterVolume := DEFAULT_VOLUME
  , masterGain := INITIAL_MASTER_VOLUME / 100
  , nodes := (List.range TRACKS.length).map initAudioNodes }

/-- The body of the `useEffect` on `[masterVolume]`:
`masterGainRef.current.gain.value = masterVolume / 100`. Besides running on
every `masterVolume` change, it runs once at first mount — declared after the
init effect, hence after `initAudio`'s synchronous master-gain setup in the
same flush — so it overwrites the master gain the moment the mount settles. -/
def masterVolumeEffect (s : EngineState) : EngineState :=
  { s with masterGain := s.masterVolume / 100 }

/-- State once the mount settles: the mount-time run of the `[masterVolume]`
effect has overwritten the master gain with `masterVolume / 100`. -/
def initState : EngineState := masterVolumeEffect initAudioState

/-! ### The `useAudioEngine` handlers -/

/-- `handleVolumeChange(value, index)`: stores `value[0]` into `volumes[index]`
and sets the track's gain node to `muted[index] ? 0 : (newVolume / 100) *
TRACKS[index].gainBoost`. -/
def handleVolumeChange (s : EngineState) (value : List ℚ) (index : Nat) : EngineState :=
  let newVolume := value.getD 0 0
  let s1 := { s with volumes := updateAt s.volumes index (fun _ => newVolume) }
  { s1 with nodes := updateAt s1.nodes index (fun n =>
      { n with gain := if s.muted.getD index false then 0
                       else (newVolume / 100) * (TRACKS.getD index default).gainBoost }) }

/-- The dB conversion in `handleEQChange`:
`const gain = ((value - 50) / 50) * 15`. -/
def eqGainDb (value : ℚ) : ℚ := ((value - 50) / 50) * 15

/-- `handleEQChange(trackIndex, band, value)`: stores `value` into the track's
EQ record and sets the corresponding filter's `gain.value` to the dB value. -/
def handleEQChange (s : EngineState) (trackIndex : Nat) (band : EQBand) (value : ℚ) :
    EngineState :=
  let s1 := { s with eq := updateAt s.eq trackIndex (fun e => e.setBand band value) }
  { s1 with nodes := updateAt s1.nodes trackIndex (fun n =>
      n.setBandGain band (eqGainDb value)) }

/-- `toggleMute(index)`: flips `muted[index]` and sets the track's gain node to
`newMuted[index] ? 0 : (volumes[index] / 100) * TRACKS[index].gainBoost`. -/
def toggleMute (s : EngineState) (index : Nat) : EngineState :=
  let newMuted := updateAt s.muted index (fun m => !m)
  let s1 := { s with muted := newMuted }
  { s1 with nodes := updateAt s1.nodes index (fun n =>
      { n with gain := if newMuted.getD index false then 0
                       else (s.volumes.getD index 0 / 100) * (TRACKS.getD index default).gainBoost }) }

/-- `setMasterVolume` together with the re-run of the `useEffect` on
`[masterVolume]` it triggers. -/
def setMasterVolume (s : EngineState) (v : ℚ) : EngineState :=
  masterVolumeEffect { s with masterVolume := v }

/-! ### Knob and slider drag handlers -/

/-- `EQKnob.handlePointerMove` (main file): with `deltaY = startY - clientY`,
`newValue = Math.max(0, Math.min(100, startValueRef.current + deltaY / 2))`. -/
def eqKnobPointerMove (startY startValue clientY : ℚ) : ℚ :=
  let deltaY := startY - clientY
  max 0 (min 100 (startValue + deltaY / 2))

/-- `MasterKnob.handlePointerMove` (main file): same clamp, then
`onChange(Math.round(newValue))`. JS `Math.round x = ⌊x + 1/2⌋`, which is
Mathlib's `round`. -/
def masterKnobPointerMove (startY startValue clientY : ℚ) : ℚ :=
  let deltaY := startY - clientY
  ((round (max 0 (min 100 (startValue + deltaY / 2))) : ℤ) : ℚ)

/-- `const sensitivityFactor = 2.5` in the `useKnob` hook (variant file). -/
def sensitivityFactor : ℚ := 5/2

/-- Result of one `useKnob.handlePointerMove` step: the value handed to
`onChange` and whether `navigator.vibrate` was called. -/
structure KnobMoveResult where
  newValue : ℚ
  vibrates : Bool
deriving DecidableEq

/-- `useKnob.handlePointerMove` (variant file): clamp
`startValue + deltaY / sensitivityFactor` to `[0,100]`, round, vibrate iff
`Math.floor(prev / 10) !== Math.floor(rounded / 10)`, then
`onChange(roundedValue)`. -/
def useKnobPointerMove (prevValue startY startValue clientY : ℚ) : KnobMoveResult :=
  let deltaY := startY - clientY
  let adjustedDelta := deltaY / sensitivityFactor
  let newValue := max 0 (min 100 (startValue + adjustedDelta))
  let roundedValue : ℤ := round newValue
  let prevTenth : ℤ := ⌊prevValue / 10⌋
  let currentTenth : ℤ := ⌊((roundedValue : ℚ)) / 10⌋
  { newValue := (roundedValue : ℚ)
  , vibrates := decide (prevTenth ≠ currentTenth) }

/-- `VibrationSlider.handleValueChange` (variant file): vibrate iff
`Math.floor(prev / 10) !== Math.floor(newValue[0] / 10)`. -/
def vibrationSliderVibrates (prevValue newValue : ℚ) : Bool :=
  decide (⌊prevValue / 10⌋ ≠ ⌊newValue / 10⌋)

/-- `useKnob.handleDoubleClick` (variant file): `onChange(50)`. -/
def handleDoubleClick {α : Type} (onChange : ℚ → α) : α := onChange 50

/-! ### `togglePlayback` -/

/-- `audio.play().catch((err) => console.error("Play error:", err))`: a
rejected play promise is consumed by the attached handler, so the attempt
itself never faults. -/
def playAttempt (p : Except String Unit) : Except String Unit :=
  match p with
  | .ok _ => .ok ()
  | .error _ => .ok ()

/-- `Promise.all` over the caught play calls. -/
def playAll : List (Except String Unit) → Except String Unit
  | [] => .ok ()
  | p :: ps => do
      let _ ← playAttempt p
      playAll ps

/-- The body of the `try` block of `togglePlayback`: resume the context if
suspended, pause everything when playing / start every track when stopped,
then `setIsPlaying(!isPlaying)`. `resume` is the outcome of
`audioContext.resume()`; each element of `plays` is the outcome of one
`audio.play()`. Returns the new `isPlaying` flag. -/
def togglePlaybackBody (suspended : Bool) (resume : Except String Unit)
    (isPlaying : Bool) (plays : List (Except String Unit)) : Except String Bool := do
  let _ ← if suspended then resume else .ok ()
  let _ ← if isPlaying then .ok () else playAll plays
  .ok (!isPlaying)

/-- `togglePlayback` with its outer `try { ... } catch (error) {
console.error(...) }`: a fault in the body is logged and swallowed, leaving
`isPlaying` unchanged. -/
def togglePlayback (suspended : Bool) (resume : Except String Unit)
    (isPlaying : Bool) (plays : List (Except String Unit)) : Bool :=
  match togglePlaybackBody suspended resume isPlaying plays with
  | .ok b => b
  | .error _ => isPlaying

/-! ### Audio graph wiring (`initAudio`) -/

/-- Nodes of the Web Audio graph built by `initAudio`. -/
inductive ANode
  | source (i : Nat)
  | high (i : Nat)
  | mid (i : Nat)
  | low (i : Nat)
  | trackGain (i : Nat)
  | master
  | dest
deriving DecidableEq

/-- One imperative step of `initAudio` that configures or connects nodes. -/
inductive BuildStep
  | connect (src dst : ANode)
  | setFilter (n : ANode) (filterType : String) (frequency : ℚ)
  | setQ (n : ANode) (q : ℚ)
  | setGain (n : ANode) (g : ℚ)
deriving DecidableEq

/-- The steps `initAudio` performs for track `i`, in source order: configure
the three filters, set the track gain, then connect
source → high → mid → low → gain → master. -/
def initTrackSteps (i : Nat) : List BuildStep :=
  [ .setFilter (.high i) "highshelf" 4000
  , .setFilter (.mid i) "peaking" 1000
  , .setQ (.mid i) 1
  , .setFilter (.low i) "lowshelf" 400
  , .setGain (.trackGain i) ((DEFAULT_VOLUME / 100) * (TRACKS.getD i default).gainBoost)
  , .connect (.source i) (.high i)
  , .connect (.high i) (.mid i)
  , .connect (.mid i) (.low i)
  , .connect (.low i) (.trackGain i)
  , .connect (.trackGain i) .master ]

/-- All steps of `initAudio`: the master gain node is configured and wired to
the destination first, then every track is set up. -/
def initSteps : List BuildStep :=
  [ BuildStep.setGain .master (INITIAL_MASTER_VOLUME / 100)
  , BuildStep.connect .master .dest ]
  ++ ((List.range TRACKS.length).map initTrackSteps).flatten

/-- The connection edges a step list creates, in order. -/
def connectionsOf (steps : List BuildStep) : List (ANode × ANode) :=
  steps.filterMap (fun st => match st with
    | .connect a b => some (a, b)
    | _ => none)

/-! ### Sequences of user operations (for the `[0,100]` invariant) -/

/-- One user interaction with the mixer. Drag events carry the raw pointer
data; the value they feed to the state handlers is computed by the drag
handlers embedded above. A `sliderVolume` op carries the value the Radix
slider reports. -/
inductive MixerOp
  | sliderVolume (index : Nat) (v : ℚ)
  | eqKnobDrag (trackIndex : Nat) (band : EQBand) (startValue startY clientY : ℚ)
  | masterKnobDrag (startValue startY clientY : ℚ)
  | mute (index : Nat)

/-- The volume sliders are rendered with `min={0} max={100}`, so the values
they report lie in `[0,100]`; drags are unconstrained. -/
def MixerOp.Valid : MixerOp → Prop
  | .sliderVolume _ v => 0 ≤ v ∧ v ≤ 100
  | _ => True

instance : DecidablePred MixerOp.Valid := by
  intro op
  cases op <;> simp [MixerOp.Valid] <;> infer_instance

/-- Dispatch one operation to the corresponding handler. -/
def applyOp (s : EngineState) : MixerOp → EngineState
  | .sliderVolume i v => handleVolumeChange s [v] i
  | .eqKnobDrag i b sv sy cy => handleEQChange s i b (eqKnobPointerMove sy sv cy)
  | .masterKnobDrag sv sy cy => setMasterVolume s (masterKnobPointerMove sy sv cy)
  | .mute i => toggleMute s i

def InBounds01 (q : ℚ) : Prop := 0 ≤ q ∧ q ≤ 100

instance : DecidablePred InBounds01 := fun q => by unfold InBounds01; infer_instance

def EQSettings.InBounds (e : EQSettings) : Prop :=
  InBounds01 e.HIGH ∧ InBounds01 e.MID ∧ InBounds01 e.LOW

instance : DecidablePred EQSettings.InBounds := fun e => by
  unfold EQSettings.InBounds; infer_instance

/-- Every stored control value of the mixer lies in `[0,100]`. -/
def StateInBounds (s : EngineState) : Prop :=
  (∀ v ∈ s.volumes, InBounds01 v) ∧ (∀ e ∈ s.eq, e.InBounds) ∧ InBounds01 s.masterVolume

instance : DecidablePred StateInBounds := fun s => by
  unfold StateInBounds; infer_instance

/-- A concrete post-init state whose first track is muted (reachable from
`initState` by one `toggleMute 0`, as the mute-button press produces). -/
def mutedState : EngineState := toggleMute initState 0

/-!
## Theorems

First the generic `updateAt` lemmas, then one theorem per claim.
-/

@[simp] theorem updateAt_nil {α : Type} (i : Nat) (f : α → α) :
    updateAt [] i f = [] := rfl

@[simp] theorem updateAt_cons_zero {α : Type} (x : α) (xs : List α) (f : α → α) :
    updateAt (x :: xs) 0 f = f x :: xs := rfl

@[simp] theorem updateAt_cons_succ {α : Type} (x : α) (xs : List α) (n : Nat) (f : α → α) :
    updateAt (x :: xs) (n + 1) f = x :: updateAt xs n f := rfl

@[simp] theorem updateAt_length {α : Type} (xs : List α) (i : Nat) (f : α → α) :
    (updateAt xs i f).length = xs.length := by
  induction xs generalizing i with
  | nil => rfl
  | cons x xs ih => cases i with
    | zero => rfl
    | succ n => simp [ih]

theorem updateAt_getD_eq {α : Type} (xs : List α) (i : Nat) (f : α → α) (d : α)
    (h : i < xs.length) : (updateAt xs i f).getD i d = f (xs.getD i d) := by
  induction xs generalizing i with
  | nil => simp at h
  | cons x xs ih => cases i with
    | zero => simp
    | succ n => simpa using ih n (by simpa using h)

theorem updateAt_getD_ne {α : Type} (xs : List α) (i j : Nat) (f : α → α) (d : α)
    (h : j ≠ i) : (updateAt xs i f).getD j d = xs.getD j d := by
  induction xs generalizing i j with
  | nil => rfl
  | cons x xs ih => cases i with
    | zero => cases j with
      | zero => exact absurd rfl h
      | succ m => simp
    | succ n => cases j with
      | zero => simp
      | succ m => simpa using ih n m (fun hmn => h (by simp [hmn]))

theorem updateAt_updateAt {α : Type} (xs : List α) (i : Nat) (f g : α → α) :
    updateAt (updateAt xs i f) i g = updateAt xs i (fun x => g (f x)) := by
  induction xs generalizing i with
  | nil => rfl
  | cons x xs ih => cases i with
    | zero => rfl
    | succ n => simp [ih]

theorem updateAt_id {α : Type} (xs : List α) (i : Nat) :
    updateAt xs i (fun x => x) = xs := by
  induction xs generalizing i with
  | nil => rfl
  | cons x xs ih => cases i with
    | zero => rfl
    | succ n => simp [ih]

theorem mem_updateAt {α : Type} {xs : List α} {i : Nat} {f : α → α} {a : α}
    (h : a ∈ updateAt xs i f) : a ∈ xs ∨ ∃ b ∈ xs, a = f b := by
  induction xs generalizing i with
  | nil => simp at h
  | cons x xs ih =>
    cases i with
    | zero =>
      rcases List.mem_cons.1 h with h1 | h1
      · exact Or.inr ⟨x, List.mem_cons_self x xs, h1⟩
      · exact Or.inl (List.mem_cons_of_mem x h1)
    | succ n =>
      rcases List.mem_cons.1 h with h1 | h1
      · exact Or.inl (h1 ▸ List.mem_cons_self x xs)
      · rcases ih h1 with h2 | ⟨b, hb, hab⟩
        · exact Or.inl (List.mem_cons_of_mem x h2)
        · exact Or.inr ⟨b, List.mem_cons_of_mem x hb, hab⟩

@[simp] theorem EQSettings.get_setBand (e : EQSettings) (b : EQBand) (v : ℚ) :
    (e.setBand b v).get b = v := by
  cases b <;> rfl

@[simp] theorem AudioNodes.bandGain_setBandGain (n : AudioNodes) (b : EQBand) (g : ℚ) :
    (n.setBandGain b g).bandGain b = g := by
  cases b <;> rfl

@[simp] theorem AudioNodes.gain_setBandGain (n : AudioNodes) (b : EQBand) (g : ℚ) :
    (n.setBandGain b g).gain = n.gain := by
  cases b <;> rfl

/-- Claim C2: `handleEQChange` maps an EQ band value `v` to a filter gain of
`((v - 50) / 50) * 15` dB on the corresponding biquad filter; the mapping is
affine-linear in `v`, and `v = 0`, `v = 100`, `v = 50` give `-15`, `+15` and
`0` dB respectively. -/
theorem handleEQChange_gain_formula (s : EngineState) (trackIndex : Nat) (band : EQBand)
    (v : ℚ) (h : trackIndex < s.nodes.length) :
    ((handleEQChange s trackIndex band v).nodes.getD trackIndex default).bandGain band
        = ((v - 50) / 50) * 15
    ∧ (∀ w : ℚ, eqGainDb w = (3 / 10) * w - 15)
    ∧ eqGainDb 0 = -15 ∧ eqGainDb 100 = 15 ∧ eqGainDb 50 = 0 := by
  refine ⟨?_, ?_, by norm_num [eqGainDb], by norm_num [eqGainDb], by norm_num [eqGainDb]⟩
  · show ((updateAt s.nodes trackIndex
        (fun n => n.setBandGain band (eqGainDb v))).getD trackIndex default).bandGain band = _
    rw [updateAt_getD_eq _ _ _ _ h, AudioNodes.bandGain_setBandGain]
    rfl
  · intro w
    unfold eqGainDb
    ring

/-- Witness for C2 at a concrete state and input. -/
theorem handleEQChange_gain_formula_witness :
    ((handleEQChange initState 0 EQBand.HIGH 30).nodes.getD 0 default).bandGain EQBand.HIGH
      = ((30 - 50) / 50) * 15 :=
  (handleEQChange_gain_formula initState 0 EQBand.HIGH 30 (by decide)).1

theorem round_le_of_le {a b : ℚ} (h : a ≤ b) : round a ≤ round b := by
  rw [round_eq, round_eq]
  exact Int.floor_le_floor (by linarith)

/-- Counterexample to claim C4 as stated: the cited `useKnob.handlePointerMove`
rounds the clamped value before reporting it, so a 1-pixel upward drag at
sensitivity 2.5 reports 50, not `clamp(50 + 1/2.5) = 50.4`. -/
theorem useKnob_rounding_counterexample :
    (useKnobPointerMove 50 1 50 0).newValue
      ≠ max 0 (min 100 (50 + (1 - 0) / sensitivityFactor)) := by
  have h1 : (50 : ℚ) + (1 - 0) / sensitivityFactor = 252 / 5 := by
    norm_num [sensitivityFactor]
  have h2 : max (0 : ℚ) (min 100 (252 / 5)) = 252 / 5 := by
    rw [min_eq_right (by norm_num), max_eq_right (by norm_num)]
  have h3 : round ((252 : ℚ) / 5) = 50 := by
    rw [round_eq, Int.floor_eq_iff]
    norm_num
  show ((round (max 0 (min 100 ((50 : ℚ) + (1 - 0) / sensitivityFactor))) : ℤ) : ℚ) ≠ _
  rw [h1, h2, h3]
  norm_num

/-- Claim C4 (amended): the EQ-knob pointer-move handlers compute exactly
`clamp(startValue + (startY - clientY) / sensitivity, 0, 100)` (sensitivity 2
in the main file's `EQKnob`), while the `useKnob` hook (sensitivity 2.5)
reports that clamped value rounded to the nearest integer; in either case the
result depends on the pointer positions only through the drag distance
`startY - clientY`, moving the pointer further up (smaller `clientY`) never
decreases the value, and moving it further down never increases it. -/
theorem eqKnobPointerMove_spec (startY startValue clientY : ℚ) :
    eqKnobPointerMove startY startValue clientY
        = max 0 (min 100 (startValue + (startY - clientY) / 2))
    ∧ (∀ prevValue, (useKnobPointerMove prevValue startY startValue clientY).newValue
        = ((round (max 0 (min 100 (startValue + (startY - clientY) / sensitivityFactor)))
            : ℤ) : ℚ))
    ∧ (∀ startY' clientY', startY - clientY = startY' - clientY' →
        eqKnobPointerMove startY' startValue clientY'
          = eqKnobPointerMove startY startValue clientY)
    ∧ (∀ clientY', clientY' ≤ clientY →
        eqKnobPointerMove startY startValue clientY
          ≤ eqKnobPointerMove startY startValue clientY')
    ∧ (∀ clientY', clientY ≤ clientY' →
        eqKnobPointerMove startY startValue clientY'
          ≤ eqKnobPointerMove startY startValue clientY)
    ∧ (∀ prevValue clientY', clientY' ≤ clientY →
        (useKnobPointerMove prevValue startY startValue clientY).newValue
          ≤ (useKnobPointerMove prevValue startY startValue clientY').newValue) := by
  refine ⟨rfl, fun prevValue => rfl, ?_, ?_, ?_, ?_⟩
  · intro startY' clientY' h
    unfold eqKnobPointerMove
    rw [← h]
  · intro clientY' h
    unfold eqKnobPointerMove
    exact max_le_max le_rfl (min_le_min le_rfl (by linarith))
  · intro clientY' h
    unfold eqKnobPointerMove
    exact max_le_max le_rfl (min_le_min le_rfl (by linarith))
  · intro prevValue clientY' h
    show ((round (max 0 (min 100 (startValue + (startY - clientY) / sensitivityFactor)))
        : ℤ) : ℚ)
      ≤ ((round (max 0 (min 100 (startValue + (startY - clientY') / sensitivityFactor)))
        : ℤ) : ℚ)
    have hle : max 0 (min 100 (startValue + (startY - clientY) / sensitivityFactor))
        ≤ max 0 (min 100 (startValue + (startY - clientY') / sensitivityFactor)) := by
      refine max_le_max le_rfl (min_le_min le_rfl ?_)
      have hs : sensitivityFactor = 5 / 2 := rfl
      rw [hs]
      linarith
    exact_mod_cast round_le_of_le hle

/-- Witness for the amended C4: a 20-pixel upward drag at sensitivity 2 adds
10; a further-up position gives a value at least as large in both handlers. -/
theorem eqKnobPointerMove_spec_witness :
    eqKnobPointerMove 100 50 80 = max 0 (min 100 (50 + (100 - 80) / 2))
    ∧ eqKnobPointerMove 100 50 90 ≤ eqKnobPointerMove 100 50 80
    ∧ (useKnobPointerMove 50 100 50 90).newValue ≤ (useKnobPointerMove 50 100 50 80).newValue :=
  ⟨(eqKnobPointerMove_spec 100 50 80).1,
   (eqKnobPointerMove_spec 100 50 90).2.2.2.1 80 (by norm_num),
   (eqKnobPointerMove_spec 100 50 90).2.2.2.2.2 50 80 (by norm_num)⟩

/-- Claim C6: play-call rejections never escape `togglePlayback` — whatever
the outcomes of the individual `audio.play()` calls, the `try`-body completes
normally (provided the context `resume()` itself did not fault, which only
runs when the context was suspended) and `setIsPlaying(!isPlaying)` still
runs. -/
theorem togglePlayback_swallows_play_errors (suspended : Bool)
    (resume : Except String Unit) (isPlaying : Bool) (plays : List (Except String Unit))
    (h : suspended = false ∨ resume = Except.ok ()) :
    togglePlaybackBody suspended resume isPlaying plays = Except.ok (!isPlaying)
    ∧ togglePlayback suspended resume isPlaying plays = !isPlaying := by
  have hall : ∀ ps : List (Except String Unit), playAll ps = Except.ok () := by
    intro ps
    induction ps with
    | nil => rfl
    | cons p ps ih => cases p <;> simp [playAll, playAttempt, ih, Bind.bind, Except.bind]
  have hbody : togglePlaybackBody suspended resume isPlaying plays = Except.ok (!isPlaying) := by
    rcases h with h | h <;>
      cases isPlaying <;>
      simp [togglePlaybackBody, h, hall, Bind.bind, Except.bind]
  exact ⟨hbody, by simp [togglePlayback, hbody]⟩

/-- Witness for C6: with one rejected and one fulfilled play call, playback
still toggles from stopped to playing. -/
theorem togglePlayback_swallows_play_errors_witness :
    togglePlaybackBody false (Except.ok ()) false
        [Except.error "NotAllowedError", Except.ok ()] = Except.ok true
    ∧ togglePlayback false (Except.ok ()) false
        [Except.error "NotAllowedError", Except.ok ()] = true :=
  togglePlayback_swallows_play_errors false (Except.ok ()) false
    [Except.error "NotAllowedError", Except.ok ()] (Or.inl rfl)

/-- Claim C7: during a knob drag (`useKnob.handlePointerMove`) and a slider
move (`VibrationSlider.handleValueChange`), `navigator.vibrate` fires exactly
when `Math.floor(previousValue / 10)` differs from `Math.floor(newValue / 10)`,
where `newValue` is the value the handler reports. -/
theorem vibrate_iff_decile_crossing (prevValue startY startValue clientY : ℚ) :
    ((useKnobPointerMove prevValue startY startValue clientY).vibrates = true ↔
      ⌊prevValue / 10⌋
        ≠ ⌊(useKnobPointerMove prevValue startY startValue clientY).newValue / 10⌋)
    ∧ (∀ newValue : ℚ, vibrationSliderVibrates prevValue newValue = true ↔
        ⌊prevValue / 10⌋ ≠ ⌊newValue / 10⌋) := by
  constructor
  · simp [useKnobPointerMove]
  · intro newValue
    simp [vibrationSliderVibrates]

/-- Claim C10: double-clicking a `useKnob`-driven knob resets its value to 50,
whatever the current value: through `handleEQChange` the stored EQ value
becomes 50 (and the filter returns to 0 dB), and through `setMasterVolume` the
master volume becomes 50. -/
theorem doubleClick_resets_to_50 (s : EngineState) (trackIndex : Nat) (band : EQBand)
    (h : trackIndex < s.eq.length) :
    ((handleDoubleClick (fun v => handleEQChange s trackIndex band v)).eq.getD
        trackIndex default).get band = 50
    ∧ ((handleDoubleClick (fun v => handleEQChange s trackIndex band v)).nodes
        = updateAt s.nodes trackIndex (fun n => n.setBandGain band 0))
    ∧ (∀ s' : EngineState, (handleDoubleClick (setMasterVolume s')).masterVolume = 50) := by
  refine ⟨?_, ?_, fun s' => rfl⟩
  · show ((updateAt s.eq trackIndex
        (fun e => e.setBand band 50)).getD trackIndex default).get band = 50
    rw [updateAt_getD_eq _ _ _ _ h, EQSettings.get_setBand]
  · show updateAt s.nodes trackIndex (fun n => n.setBandGain band (eqGainDb 50))
        = updateAt s.nodes trackIndex (fun n => n.setBandGain band 0)
    norm_num [eqGainDb]

/-- Witness for C10 at a concrete state whose MID value is not 50. -/
theorem doubleClick_resets_to_50_witness :
    ((handleDoubleClick
        (fun v => handleEQChange (handleEQChange initState 1 EQBand.MID 80) 1 EQBand.MID v)).eq.getD
        1 default).get EQBand.MID = 50 :=
  (doubleClick_resets_to_50 (handleEQChange initState 1 EQBand.MID 80) 1 EQBand.MID
    (by decide)).1

/-- Counterexample to claim C8 as stated: the `useEffect` on `[masterVolume]`
also runs at first mount, after `initAudio`'s synchronous master-gain write in
the same flush, so once the mount settles the master gain node holds
`masterVolume / 100 = 0.5`, not `INITIAL_MASTER_VOLUME / 100 = 0.75`, and no
persistent mismatch with `masterVolume / 100` exists. -/
theorem initState_master_gain_counterexample :
    ¬ (initState.masterGain = INITIAL_MASTER_VOLUME / 100
        ∧ initState.masterGain ≠ initState.masterVolume / 100) := by
  norm_num [initState, initAudioState, masterVolumeEffect,
    INITIAL_MASTER_VOLUME, DEFAULT_VOLUME]

/-- Claim C8 (amended): `initAudio` does write
`INITIAL_MASTER_VOLUME / 100 = 0.75` into the master gain node while the
stored `masterVolume` is `DEFAULT_VOLUME = 50`, but that value is transient:
the mount-time run of the `useEffect` on `[masterVolume]` overwrites the
master gain with `masterVolume / 100 = 0.5`, so from the moment mount settles
the applied master gain equals `masterVolume / 100` — `INITIAL_MASTER_VOLUME`
never affects the settled state — and it continues to equal
`masterVolume / 100` after every `setMasterVolume`. -/
theorem initState_master_gain_settled :
    initAudioState.masterGain = INITIAL_MASTER_VOLUME / 100
    ∧ initAudioState.masterGain = 3 / 4
    ∧ initState = masterVolumeEffect initAudioState
    ∧ initState.masterVolume = DEFAULT_VOLUME
    ∧ initState.masterGain = initState.masterVolume / 100
    ∧ initState.masterGain = 1 / 2
    ∧ (∀ v : ℚ, (setMasterVolume initState v).masterGain
        = (setMasterVolume initState v).masterVolume / 100) := by
  refine ⟨rfl, by norm_num [initAudioState, INITIAL_MASTER_VOLUME], rfl, rfl, rfl,
    by norm_num [initState, initAudioState, masterVolumeEffect, DEFAULT_VOLUME],
    fun v => rfl⟩

/-- Claim C1: muting an unmuted track forces its gain node to exactly 0; and
in both directions `toggleMute` leaves the stored volume array, the EQ state,
the master volume, and every other track's mute flag unchanged. -/
theorem toggleMute_zeroes_gain_preserves_rest (s : EngineState) (i : Nat)
    (hm : i < s.muted.length) (hn : i < s.nodes.length) :
    (s.muted.getD i false = false → ((toggleMute s i).nodes.getD i default).gain = 0)
    ∧ (toggleMute s i).volumes = s.volumes
    ∧ (toggleMute s i).eq = s.eq
    ∧ (toggleMute s i).masterVolume = s.masterVolume
    ∧ (∀ j, j ≠ i → (toggleMute s i).muted.getD j false = s.muted.getD j false) := by
  refine ⟨?_, rfl, rfl, rfl, ?_⟩
  · intro h
    show ((updateAt s.nodes i _).getD i default).gain = 0
    rw [updateAt_getD_eq _ _ _ _ hn]
    show (if (updateAt s.muted i (fun m => !m)).getD i false then (0 : ℚ)
          else (s.volumes.getD i 0 / 100) * (TRACKS.getD i default).gainBoost) = 0
    rw [updateAt_getD_eq _ _ _ _ hm, h]
    rfl
  · intro j hj
    show (updateAt s.muted i _).getD j false = s.muted.getD j false
    exact updateAt_getD_ne _ _ _ _ _ hj

/-- Witness for C1 at the post-init state, track 0 (initially unmuted). -/
theorem toggleMute_zeroes_gain_preserves_rest_witness :
    ((toggleMute initState 0).nodes.getD 0 default).gain = 0
    ∧ (toggleMute initState 0).volumes = initState.volumes
    ∧ (toggleMute initState 0).eq = initState.eq :=
  ⟨(toggleMute_zeroes_gain_preserves_rest initState 0 (by decide) (by decide)).1 (by decide),
   (toggleMute_zeroes_gain_preserves_rest initState 0 (by decide) (by decide)).2.1,
   (toggleMute_zeroes_gain_preserves_rest initState 0 (by decide) (by decide)).2.2.1⟩

/-- Counterexample to claim C9 as stated: on a track that is muted before the
two toggles (`mutedState`, reached from `initState` by one mute press), a
mute/unmute round trip leaves the gain node at 0, not at
`(volumes[i] / 100) * gainBoost[i]` (= 0.15 here). -/
theorem toggleMute_double_gain_counterexample :
    ¬ (((toggleMute (toggleMute mutedState 0) 0).nodes.getD 0 default).gain
        = (mutedState.volumes.getD 0 0 / 100) * (TRACKS.getD 0 default).gainBoost) := by
  have hr : List.range 4 = [0, 1, 2, 3] := rfl
  norm_num [mutedState, initState, initAudioState, masterVolumeEffect, toggleMute,
    initAudioNodes, TRACKS, DEFAULT_VOLUME, List.getD, hr]

/-- Claim C9 (amended): applying `toggleMute` twice returns the mute flags to
their original values and leaves the track's gain node at the effective gain
for the stored volume — `(volumes[i] / 100) * gainBoost[i]` when the track
was initially unmuted, 0 when it was initially muted — which is exactly the
gain `handleVolumeChange` would set for the stored volume. -/
theorem toggleMute_double_restores (s : EngineState) (i : Nat)
    (hn : i < s.nodes.length) :
    (toggleMute (toggleMute s i) i).muted = s.muted
    ∧ ((toggleMute (toggleMute s i) i).nodes.getD i default).gain
        = (if s.muted.getD i false then 0
           else (s.volumes.getD i 0 / 100) * (TRACKS.getD i default).gainBoost)
    ∧ ((toggleMute (toggleMute s i) i).nodes.getD i default).gain
        = ((handleVolumeChange s [s.volumes.getD i 0] i).nodes.getD i default).gain := by
  have hmuted : updateAt (updateAt s.muted i (fun m => !m)) i (fun m => !m) = s.muted := by
    rw [updateAt_updateAt]
    simpa [Bool.not_not] using updateAt_id s.muted i
  have h2 : ((toggleMute (toggleMute s i) i).nodes.getD i default).gain
      = (if s.muted.getD i false then 0
         else (s.volumes.getD i 0 / 100) * (TRACKS.getD i default).gainBoost) := by
    show ((updateAt (updateAt s.nodes i _) i _).getD i default).gain = _
    rw [updateAt_updateAt, updateAt_getD_eq _ _ _ _ hn]
    simp only [toggleMute, updateAt_updateAt, hmuted]
  have h3 : ((handleVolumeChange s [s.volumes.getD i 0] i).nodes.getD i default).gain
      = (if s.muted.getD i false then 0
         else (s.volumes.getD i 0 / 100) * (TRACKS.getD i default).gainBoost) := by
    show ((updateAt s.nodes i _).getD i default).gain = _
    rw [updateAt_getD_eq _ _ _ _ (by simpa using hn)]
    simp [List.getD]
  refine ⟨?_, h2, h2.trans h3.symm⟩
  show updateAt (updateAt s.muted i _) i _ = s.muted
  exact hmuted

/-- Witness for the amended C9 at `mutedState`, track 0: the flags round-trip
and the gain ends at 0 because the track started muted. -/
theorem toggleMute_double_restores_witness :
    (toggleMute (toggleMute mutedState 0) 0).muted = mutedState.muted
    ∧ ((toggleMute (toggleMute mutedState 0) 0).nodes.getD 0 default).gain = 0 := by
  refine ⟨(toggleMute_double_restores mutedState 0 (by decide)).1, ?_⟩
  rw [(toggleMute_double_restores mutedState 0 (by decide)).2.1]
  decide

/-- Claim C5: `initAudio` wires, for every track, the linear chain
source → high shelf (4000 Hz) → peaking (1000 Hz, Q = 1) → low shelf (400 Hz)
→ track gain → master gain, with the single master gain node connected to the
context destination. -/
theorem initAudio_wiring (i : Nat) (h : i < TRACKS.length) :
    connectionsOf (initTrackSteps i)
        = [(ANode.source i, ANode.high i), (ANode.high i, ANode.mid i),
           (ANode.mid i, ANode.low i), (ANode.low i, ANode.trackGain i),
           (ANode.trackGain i, ANode.master)]
    ∧ connectionsOf (initTrackSteps i) <:+: connectionsOf initSteps
    ∧ (ANode.master, ANode.dest) ∈ connectionsOf initSteps
    ∧ BuildStep.setFilter (ANode.high i) "highshelf" 4000 ∈ initSteps
    ∧ BuildStep.setFilter (ANode.mid i) "peaking" 1000 ∈ initSteps
    ∧ BuildStep.setQ (ANode.mid i) 1 ∈ initSteps
    ∧ BuildStep.setFilter (ANode.low i) "lowshelf" 400 ∈ initSteps := by
  have h4 : i < 4 := by simpa [TRACKS] using h
  interval_cases i <;> exact ⟨rfl, by decide, by decide, by decide, by decide, by decide, by decide⟩

/-- Witness for C5 at track 0. -/
theorem initAudio_wiring_witness :
    connectionsOf (initTrackSteps 0)
        = [(ANode.source 0, ANode.high 0), (ANode.high 0, ANode.mid 0),
           (ANode.mid 0, ANode.low 0), (ANode.low 0, ANode.trackGain 0),
           (ANode.trackGain 0, ANode.master)]
    ∧ (ANode.master, ANode.dest) ∈ connectionsOf initSteps :=
  ⟨(initAudio_wiring 0 (by decide)).1, (initAudio_wiring 0 (by decide)).2.2.1⟩

theorem clamp01_inBounds (x : ℚ) : InBounds01 (max 0 (min 100 x)) := by
  constructor
  · exact le_max_left 0 _
  · exact max_le (by norm_num) (min_le_left 100 x)

theorem masterKnobPointerMove_inBounds (startY startValue clientY : ℚ) :
    InBounds01 (masterKnobPointerMove startY startValue clientY) := by
  show InBounds01 ((round (max 0 (min 100 (startValue + (startY - clientY) / 2))) : ℤ) : ℚ)
  obtain ⟨h0, h1⟩ := clamp01_inBounds (startValue + (startY - clientY) / 2)
  constructor
  · have : (0 : ℤ) ≤ round (max 0 (min 100 (startValue + (startY - clientY) / 2))) := by
      rw [round_eq]
      exact Int.floor_nonneg.2 (by linarith)
    exact_mod_cast this
  · have : round (max 0 (min 100 (startValue + (startY - clientY) / 2))) ≤ (100 : ℤ) := by
      rw [round_eq]
      have hf : ⌊max 0 (min 100 (startValue + (startY - clientY) / 2)) + 1 / 2⌋
          ≤ ⌊(201 : ℚ) / 2⌋ := Int.floor_le_floor (by linarith)
      have h201 : (⌊(201 : ℚ) / 2⌋ : ℤ) = 100 := by
        rw [Int.floor_eq_iff]
        norm_num
      omega
    exact_mod_cast this

theorem setBand_inBounds {e : EQSettings} {v : ℚ} (he : e.InBounds) (hv : InBounds01 v)
    (b : EQBand) : (e.setBand b v).InBounds := by
  obtain ⟨h1, h2, h3⟩ := he
  cases b <;> exact ⟨by assumption, by assumption, by assumption⟩

theorem applyOp_preserves (s : EngineState) (op : MixerOp) (hv : op.Valid)
    (hs : StateInBounds s) : StateInBounds (applyOp s op) := by
  obtain ⟨hvol, heq, hmas⟩ := hs
  cases op with
  | sliderVolume i v =>
    obtain ⟨h0, h1⟩ := hv
    refine ⟨?_, heq, hmas⟩
    intro w hw
    show InBounds01 w
    rcases mem_updateAt (show w ∈ updateAt s.volumes i (fun _ => [v].getD 0 0) from hw) with
      h | ⟨b, _, rfl⟩
    · exact hvol w h
    · exact ⟨h0, h1⟩
  | eqKnobDrag i b sv sy cy =>
    refine ⟨hvol, ?_, hmas⟩
    intro e he
    rcases mem_updateAt (show e ∈ updateAt s.eq i _ from he) with h | ⟨e0, he0, rfl⟩
    · exact heq e h
    · exact setBand_inBounds (heq e0 he0) (clamp01_inBounds _) b
  | masterKnobDrag sv sy cy =>
    exact ⟨hvol, heq, masterKnobPointerMove_inBounds sy sv cy⟩
  | mute i =>
    exact ⟨hvol, heq, hmas⟩

theorem foldl_applyOp_preserves (ops : List MixerOp) :
    ∀ s : EngineState, StateInBounds s → (∀ op ∈ ops, op.Valid) →
      StateInBounds (ops.foldl applyOp s) := by
  induction ops with
  | nil => intro s hs _; exact hs
  | cons op ops ih =>
    intro s hs hops
    exact ih (applyOp s op)
      (applyOp_preserves s op (hops op (List.mem_cons_self op ops)) hs)
      (fun o ho => hops o (List.mem_cons_of_mem op ho))

/-- Claim C3: starting from the post-init state, every sequence of user
operations — volume-slider changes (constrained to `[0,100]` by the slider's
`min={0} max={100}` props), EQ-knob drags and master-knob drags (clamped by
`Math.max(0, Math.min(100, ...))` in the pointer-move handlers), and mute
presses — keeps every stored per-track volume, every EQ band value, and the
master volume within `[0,100]`. -/
theorem control_values_stay_in_bounds (ops : List MixerOp)
    (h : ∀ op ∈ ops, op.Valid) :
    StateInBounds initState ∧ StateInBounds (ops.foldl applyOp initState) := by
  have hinit : StateInBounds initState := by
    refine ⟨?_, ?_, ?_⟩
    · intro v hv
      simp only [initState, initAudioState, masterVolumeEffect, TRACKS, List.map_cons,
        List.map_nil, List.mem_cons, List.not_mem_nil, or_false] at hv
      rcases hv with rfl | rfl | rfl | rfl <;> exact ⟨by norm_num [DEFAULT_VOLUME],
        by norm_num [DEFAULT_VOLUME]⟩
    · intro e he
      simp only [initState, initAudioState, masterVolumeEffect, TRACKS, List.map_cons,
        List.map_nil, List.mem_cons, List.not_mem_nil, or_false] at he
      have hb : InBounds01 DEFAULT_VOLUME := ⟨by norm_num [DEFAULT_VOLUME],
        by norm_num [DEFAULT_VOLUME]⟩
      rcases he with rfl | rfl | rfl | rfl <;> exact ⟨hb, hb, hb⟩
    · exact ⟨by norm_num [initState, initAudioState, masterVolumeEffect, DEFAULT_VOLUME],
        by norm_num [initState, initAudioState, masterVolumeEffect, DEFAULT_VOLUME]⟩
  exact ⟨hinit, foldl_applyOp_preserves ops initState hinit h⟩

/-- Witness for C3: a concrete session — a slider move to 80, a long downward
EQ drag (clamped to 0), a long upward master drag (clamped to 100), a mute —
leaves every control value in `[0,100]`. -/
theorem control_values_stay_in_bounds_witness :
    StateInBounds ([MixerOp.sliderVolume 0 80,
        MixerOp.eqKnobDrag 1 EQBand.LOW 50 0 500,
        MixerOp.masterKnobDrag 50 500 0,
        MixerOp.mute 2].foldl applyOp initState) :=
  (control_values_stay_in_bounds
    [MixerOp.sliderVolume 0 80,
      MixerOp.eqKnobDrag 1 EQBand.LOW 50 0 500,
      MixerOp.masterKnobDrag 50 500 0,
      MixerOp.mute 2]
    (by intro op hop
        simp only [List.mem_cons, List.not_mem_nil, or_false] at hop
        rcases hop with rfl | rfl | rfl | rfl <;>
          norm_num [MixerOp.Valid])).2

end Mixer
